import Mathlib

/-!
Shallow embedding of the office RAG pipeline (guardrails.py and
rag_pipeline.py). Python strings are modelled as `List Char`; Python's
`needle in haystack` substring test is `substrIn`; `str.lower()` is
`pyLower` (ASCII case folding, which covers every string the code holds);
floats (relevance threshold, chunk distances) are modelled as exact
rationals `ℚ`.
-/

/-- A Python string, modelled as its character list. -/
abbrev Str := List Char

/-- Character list of a Lean string literal. -/
def lc (s : String) : Str := s.toList

/-- Python `str.lower()` (ASCII folding). -/
def pyLower (s : Str) : Str := s.map Char.toLower

/-- Python `needle in hay` for strings: `needle` occurs as a contiguous
substring of `hay` (the empty string occurs in every string). -/
def substrIn (needle : Str) : Str → Bool
  | [] => needle.isPrefixOf ([] : Str)
  | c :: t => needle.isPrefixOf (c :: t) || substrIn needle t

/-- guardrails.OFFICE_KEYWORDS (a Python set; membership order never
matters because it is only scanned for an existing match). -/
def OFFICE_KEYWORDS : List Str :=
  [lc "office", lc "meeting room", lc "conference room", lc "facility", lc "workspace",
   lc "desk", lc "parking", lc "cafeteria", lc "kitchen", lc "lobby", lc "reception",
   lc "floor", lc "building", lc "elevator", lc "restroom", lc "break room",
   lc "policy", lc "procedure", lc "guideline", lc "protocol", lc "standard",
   lc "regulation", lc "compliance", lc "rule", lc "handbook", lc "manual",
   lc "reservation", lc "booking", lc "schedule", lc "calendar", lc "appointment",
   lc "visitor", lc "access", lc "badge", lc "keycard", lc "security",
   lc "equipment", lc "supply", lc "supplies", lc "printer", lc "copier", lc "scanner",
   lc "projector", lc "whiteboard", lc "stationery", lc "furniture",
   lc "document", lc "form", lc "template", lc "report", lc "memo", lc "notice",
   lc "announcement", lc "newsletter",
   lc "amenity", lc "amenities", lc "service", lc "resource", lc "mail", lc "mailroom",
   lc "cleaning", lc "maintenance", lc "hvac", lc "air conditioning", lc "heating",
   lc "dress code", lc "work hours", lc "working hours", lc "remote work",
   lc "hybrid", lc "attendance", lc "leave", lc "holiday", lc "vacation",
   lc "onboarding", lc "orientation",
   lc "fire drill", lc "emergency", lc "evacuation", lc "first aid", lc "safety"]

/-- guardrails.BLOCKED_TOPICS. -/
def BLOCKED_TOPICS : List Str :=
  [lc "stock price", lc "investment", lc "crypto", lc "bitcoin",
   lc "dating", lc "relationship",
   lc "recipe", lc "cooking",
   lc "weather forecast",
   lc "sports score", lc "game score",
   lc "movie", lc "tv show", lc "netflix",
   lc "politics", lc "election", lc "vote",
   lc "religion"]

/-- guardrails.REFUSAL_OUT_OF_SCOPE. -/
def REFUSAL_OUT_OF_SCOPE : Str :=
  lc "I can only answer questions related to office operations and policies. Please ask me about office facilities, procedures, equipment, or related topics."

/-- guardrails.REFUSAL_NO_CONTEXT. -/
def REFUSAL_NO_CONTEXT : Str :=
  lc "I don't have information about this in the current office documentation. The topic may not be covered in the documents that have been loaded."

/-- Python regex `\w` on the code's ASCII data: letters, digits, underscore. -/
def isWordChar (c : Char) : Bool := c.isAlphanum || c = '_'

/-- Python regex `\s` on ASCII data: space, tab, newline, return, vertical
tab, form feed. -/
def isSpaceChar (c : Char) : Bool :=
  c = ' ' || c = '\t' || c = '\n' || c = '\r' || c = '\x0b' || c = '\x0c'

/-- The first alternation of guardrails.is_office_related's fallback regex
`\b(the|our|my|this)\s+(office|room|building|floor|team|department|company)\b`. -/
def ARTICLE_WORDS : List Str := [lc "the", lc "our", lc "my", lc "this"]

/-- The second alternation of the fallback regex. -/
def OFFICE_NOUNS : List Str :=
  [lc "office", lc "room", lc "building", lc "floor", lc "team",
   lc "department", lc "company"]

/-- The fallback regex matches starting exactly at the head of `s`:
some article word is a prefix, then at least one whitespace character
(greedy `\s+` is exact here since no noun starts with whitespace), then a
noun followed by a word boundary. The leading `\b` is checked by the
caller `officeNounSearch`. -/
def nounMatchAt (s : Str) : Bool :=
  ARTICLE_WORDS.any fun w =>
    w.isPrefixOf s &&
      (let rest := s.drop w.length
       let rest2 := rest.dropWhile isSpaceChar
       decide (rest2.length < rest.length) &&
         OFFICE_NOUNS.any fun n =>
           n.isPrefixOf rest2 &&
             (match rest2.drop n.length with
              | [] => true
              | c :: _ => !isWordChar c))

/-- Python `re.search` of the fallback regex, as a truth value: a match
exists at some position. `prevWord` records whether the character before
the current position is a word character; since every article word starts
with a word character, the leading `\b` holds exactly when it is not. -/
def officeNounSearch (prevWord : Bool) : Str → Bool
  | [] => !prevWord && nounMatchAt []
  | c :: t => (!prevWord && nounMatchAt (c :: t)) || officeNounSearch (isWordChar c) t

/-- guardrails.is_office_related. `company_terms = none` models Python's
default `None`; a `none` or empty list both fail Python's `if company_terms:`
truthiness guard, and an empty `any` is false either way. -/
def is_office_related (question : Str) (company_terms : Option (List Str)) : Bool :=
  let ql := pyLower question
  if BLOCKED_TOPICS.any (fun b => substrIn b ql) then false
  else if OFFICE_KEYWORDS.any (fun k => substrIn k ql) then true
  else if (company_terms.getD []).any (fun t => substrIn (pyLower t) ql) then true
  else officeNounSearch false ql

/-- guardrails.format_guardrail_refusal: the wrapper the pipeline calls; note
it passes no company terms to is_office_related. -/
def format_guardrail_refusal (question : Str) : Option Str :=
  if !is_office_related question none then some REFUSAL_OUT_OF_SCOPE else none

/-- A retrieved chunk: `text`, its metadata's `filename` entry (absent
filename modelled as `none`, matching `metadata.get("filename", ...)`),
and the store's cosine distance (float modelled as ℚ). -/
structure Chunk where
  text : Str
  filename : Option Str
  distance : ℚ
deriving DecidableEq

/-- guardrails.hallucination_markers (local list inside validate_response). -/
def hallucination_markers : List Str :=
  [lc "i don't have access",
   lc "as an ai",
   lc "i cannot browse",
   lc "i'm not able to",
   lc "my training data"]

/-- The marker scan loop of guardrails.validate_response: true when some
marker of `ms` occurs in `resp`. -/
def findMarker (resp : Str) : List Str → Bool
  | [] => false
  | m :: rest => substrIn m resp || findMarker resp rest

/-- guardrails.validate_response. -/
def validate_response (response : Str) (context_chunks : List Chunk) : Str :=
  match context_chunks with
  | [] => REFUSAL_NO_CONTEXT
  | _ :: _ =>
    if findMarker (pyLower response) hallucination_markers then REFUSAL_NO_CONTEXT
    else response

/-- The fields of config.Settings the pipeline reads (defaults from
config.py; the 0.3 float threshold is the exact rational 3/10). -/
structure Settings where
  ollama_base_url : Str
  relevance_score_threshold : ℚ
  max_context_tokens : Nat
deriving DecidableEq

/-- config.settings with its default values. -/
def defaultSettings : Settings :=
  { ollama_base_url := lc "http://localhost:11434"
    relevance_score_threshold := 3 / 10
    max_context_tokens := 1500 }

/-- The per-chunk entry string of rag_pipeline.build_context:
`f"[Source: {source}]\n{text}"` with `source = metadata.get("filename", "Unknown")`. -/
def chunkEntry (c : Chunk) : Str :=
  lc "[Source: " ++ c.filename.getD (lc "Unknown") ++ lc "]\n" ++ c.text

/-- The entry separator build_context joins with. -/
def ENTRY_SEP : Str := lc "\n\n---\n\n"

/-- The accumulation loop of build_context: keep taking entries while the
running total of entry lengths (separators not counted) stays within
`budget`; the first overflow stops the loop (`break`). -/
def takeEntries (budget : Nat) (totalLen : Nat) : List Chunk → List Str
  | [] => []
  | c :: rest =>
    if totalLen + (chunkEntry c).length > budget then []
    else chunkEntry c :: takeEntries budget (totalLen + (chunkEntry c).length) rest

/-- Python `"sep".join(parts)`. -/
def joinSep (sep : Str) : List Str → Str
  | [] => []
  | [e] => e
  | e :: e2 :: rest => e ++ sep ++ joinSep sep (e2 :: rest)

/-- rag_pipeline.build_context with the caller's `max_tokens` resolved (the
pipeline always lets it default to `settings.max_context_tokens`); the
character budget is `max_tokens * 4`. -/
def build_context (chunks : List Chunk) (maxTokens : Nat) : Str :=
  joinSep ENTRY_SEP (takeEntries (maxTokens * 4) 0 chunks)

/-- A chat message role. -/
inductive Role where
  | system
  | user
deriving DecidableEq

/-- A chat message for the Ollama API. -/
structure Message where
  role : Role
  content : Str
deriving DecidableEq

/-- rag_pipeline.SYSTEM_PROMPT (its lines, joined by newlines; the Python
triple-quoted literal ends with a trailing newline). -/
def SYSTEM_PROMPT : Str :=
  lc (String.intercalate "\n"
    ["You are an Office Information Assistant specialized in answering questions ONLY about company office operations, policies, facilities, and documentation. Your knowledge is strictly limited to the provided context from office documents.",
     "",
     "# GUARDRAILS & BOUNDARIES:",
     "1. ONLY answer questions related to:",
     "   - Office policies, procedures, and guidelines",
     "   - Facility information (meeting rooms, equipment, amenities)",
     "   - Employee resources and office services",
     "   - Documented office protocols and standards",
     "   - Company-specific office operations",
     "",
     "2. STRICTLY REFUSE to answer questions about:",
     "   - Personal matters unrelated to office operations",
     "   - Technical IT support beyond basic office equipment",
     "   - Financial, legal, or HR matters unless specifically in office context",
     "   - External topics, news, or unrelated subjects",
     "   - Speculative or hypothetical scenarios outside office scope",
     "",
     "# RESPONSE PROTOCOL:",
     "- Use ONLY information from the provided context",
     "- If context doesn't contain the answer, say: \"I don't have information about this in the office documentation.\"",
     "- If the question is outside office scope, say: \"I can only answer questions related to office operations and policies.\"",
     "- Never speculate or use external knowledge",
     "- Be concise and reference specific office documents when possible",
     ""])

/-- rag_pipeline.build_prompt. -/
def build_prompt (context : Str) (question : Str) : List Message :=
  [{ role := Role.system, content := SYSTEM_PROMPT },
   { role := Role.user,
     content :=
       lc "# CONTEXT FROM OFFICE DOCUMENTS:\n" ++ context ++
       lc "\n\n# QUESTION:\n" ++ question ++
       lc "\n\nAnswer the question using ONLY the context above. If the answer is not in the context, say you don't have that information." }]

/-- What the generation service layer can raise: rag_pipeline.call_ollama's
ConnectionError (endpoint unreachable) and RuntimeError (non-200 status). -/
inductive GenError where
  | connectionError (msg : Str)
  | runtimeError (msg : Str)
deriving DecidableEq

/-- An HTTP response from the Ollama endpoint as call_ollama reads it:
status code, raw body text (`resp.text`), and the optional
`message.content` field of the parsed JSON. -/
structure OllamaResponse where
  status : Nat
  body : Str
  content : Option Str
deriving DecidableEq

/-- Python `str.strip()`: drop leading and trailing whitespace. -/
def pyStrip (s : Str) : Str :=
  ((s.dropWhile isSpaceChar).reverse.dropWhile isSpaceChar).reverse

/-- The message of the ConnectionError call_ollama raises. -/
def connectErrMsg (st : Settings) : Str :=
  lc "Cannot connect to Ollama at " ++ st.ollama_base_url ++
  lc ". Make sure Ollama is running (ollama serve)."

/-- The message of the RuntimeError call_ollama raises on a non-200 status. -/
def statusErrMsg (status : Nat) (body : Str) : Str :=
  lc "Ollama returned status " ++ lc (toString status) ++ lc ": " ++ body

/-- rag_pipeline.call_ollama over an abstract transport `http`: `none`
models `requests.ConnectionError`, otherwise the response is inspected.
On success the content is extracted leniently
(`data.get("message", \x7b\x7d).get("content", "").strip()`): a missing
field yields the empty string, never a failure. -/
def call_ollama (http : List Message → Option OllamaResponse) (st : Settings)
    (messages : List Message) : Except GenError Str :=
  match http messages with
  | none => Except.error (GenError.connectionError (connectErrMsg st))
  | some resp =>
    if resp.status ≠ 200 then
      Except.error (GenError.runtimeError (statusErrMsg resp.status resp.body))
    else
      Except.ok (pyStrip (resp.content.getD []))

/-- The result dict of RAGPipeline.query. -/
structure QueryResult where
  answer : Str
  sources : List Str
  was_filtered : Bool
deriving DecidableEq

/-- The relevance filtering step of RAGPipeline.query: keep the chunks whose
distance is at most `1 - threshold` (the list comprehension preserves order). -/
def relevanceFilter (threshold : ℚ) (chunks : List Chunk) : List Chunk :=
  chunks.filter (fun c => decide (c.distance ≤ 1 - threshold))

/-- The source string query takes from a chunk:
`c["metadata"].get("filename", "Unknown")`. -/
def chunkSource (c : Chunk) : Str := c.filename.getD (lc "Unknown")

/-- The deduplication loop of RAGPipeline.query, with its `seen` set
(modelled as the list of values seen so far). -/
def dedupAux (seen : List Str) : List Str → List Str
  | [] => []
  | s :: rest =>
    if s ∈ seen then dedupAux seen rest
    else s :: dedupAux (s :: seen) rest

/-- Deduplicate while preserving order, as query does before returning. -/
def dedupSources (sources : List Str) : List Str := dedupAux [] sources

/-- The retrieval query string: `f"office information: {question}"`. -/
def enhancedQuery (question : Str) : Str := lc "office information: " ++ question

/-- RAGPipeline.query. `store` abstracts `self.vector_store.search` and
`http` the Ollama transport. Faithful to the source: the guardrail call
`format_guardrail_refusal(question)` receives no company terms, so the
`company_terms` argument is dead. -/
def query (store : Str → List Chunk) (http : List Message → Option OllamaResponse)
    (st : Settings) (question : Str) (company_terms : Option (List Str)) :
    Except GenError QueryResult :=
  match format_guardrail_refusal question with
  | some refusal =>
    Except.ok { answer := refusal, sources := [], was_filtered := true }
  | none =>
    let chunks := store (enhancedQuery question)
    let filtered_chunks := relevanceFilter st.relevance_score_threshold chunks
    if filtered_chunks = [] then
      Except.ok { answer := REFUSAL_NO_CONTEXT, sources := [], was_filtered := false }
    else
      let context := build_context filtered_chunks st.max_context_tokens
      let messages := build_prompt context question
      match call_ollama http st messages with
      | Except.error e => Except.error e
      | Except.ok raw_response =>
        let final_response := validate_response raw_response filtered_chunks
        Except.ok
          { answer := final_response
            sources := dedupSources (filtered_chunks.map chunkSource)
            was_filtered := false }

/-- The "keep each value's first occurrence" specification of
order-preserving deduplication, written from the claim's words (to be
compared with the code's seen-set loop `dedupAux`). -/
def firstOccurrences : List Str → List Str
  | [] => []
  | s :: rest => s :: firstOccurrences (rest.filter (fun t => decide (t ≠ s)))
termination_by l => l.length
decreasing_by
  simp only [List.length_cons, Nat.lt_succ_iff]
  exact List.length_filter_le _ _

/-! Concrete scenario data for witnesses and counterexamples. -/

/-- A chunk sitting exactly on the distance cutoff for the default 0.3
threshold: distance 7/10 = 1 − 3/10. -/
def boundaryChunk : Chunk :=
  { text := lc "Boundary chunk", filename := some (lc "a.pdf"), distance := 7 / 10 }

/-- A chunk whose formatted entry "[Source: a]\nxx" is 14 characters long. -/
def cexChunk : Chunk :=
  { text := lc "xx", filename := some (lc "a"), distance := 1 / 5 }

/-- An in-scope question (keyword "dress code"). -/
def qDress : Str := lc "What is the dress code policy?"

def chunkA : Chunk :=
  { text := lc "Dress code is business casual.", filename := some (lc "a.pdf"),
    distance := 1 / 5 }

def chunkB : Chunk :=
  { text := lc "Rooms are booked via the portal.", filename := some (lc "b.pdf"),
    distance := 1 / 5 }

def chunkA2 : Chunk :=
  { text := lc "Casual Fridays are allowed.", filename := some (lc "a.pdf"),
    distance := 3 / 10 }

/-- A chunk too far from any query: distance 9/10 > cutoff 7/10 (Scenario C). -/
def chunkFar : Chunk :=
  { text := lc "Unrelated text.", filename := some (lc "far.pdf"), distance := 9 / 10 }

/-- A relevant chunk whose metadata lacks a filename. -/
def chunkNoName : Chunk :=
  { text := lc "Orphan text.", filename := none, distance := 1 / 5 }

def storeABA : Str → List Chunk := fun _ => [chunkA, chunkB, chunkA2]

def storeFar : Str → List Chunk := fun _ => [chunkFar]

def storeNoName : Str → List Chunk := fun _ => [chunkNoName]

/-- A transport on which every request fails to connect. -/
def httpDown : List Message → Option OllamaResponse := fun _ => none

/-- A transport answering every request with status 500 and body "boom". -/
def http500 : List Message → Option OllamaResponse := fun _ => some ⟨500, lc "boom", none⟩

/-- A transport answering every request with status 200 and a fixed grounded
reply. -/
def httpOkMsg : List Message → Option OllamaResponse :=
  fun _ => some ⟨200, lc "", some (lc "Business casual, per the handbook.")⟩

/-! Helper lemmas. -/

theorem substrIn_iff (n h : Str) : substrIn n h = true ↔ n <:+: h := by
  induction h with
  | nil =>
    simp [substrIn, List.isPrefixOf_iff_prefix]
  | cons c t ih =>
    simp [substrIn, List.isPrefixOf_iff_prefix, ih, List.infix_cons_iff]

theorem findMarker_iff (r : Str) (ms : List Str) :
    findMarker r ms = true ↔ ∃ m ∈ ms, substrIn m r = true := by
  induction ms with
  | nil => simp [findMarker]
  | cons m rest ih => simp [findMarker, ih]

theorem refusal_has_no_marker :
    findMarker (pyLower REFUSAL_NO_CONTEXT) hallucination_markers = false := by
  decide

/-! Claim theorems. -/

/-- C3: a question whose lower-casing contains any blocked-topic phrase is
classified out of scope by is_office_related, whatever company terms are
supplied and whatever domain keywords or fallback patterns co-occur. -/
theorem blocked_topic_takes_precedence (q : Str) (ct : Option (List Str))
    (h : ∃ b ∈ BLOCKED_TOPICS, substrIn b (pyLower q) = true) :
    is_office_related q ct = false := by
  obtain ⟨b, hb, hs⟩ := h
  have hany : BLOCKED_TOPICS.any (fun b => substrIn b (pyLower q)) = true :=
    List.any_eq_true.mpr ⟨b, hb, hs⟩
  simp [is_office_related, hany]

/-- Witness for C3: "Is bitcoin allowed in the office?" contains the blocked
phrase "bitcoin" and the accepting keyword "office", yet classifies false
even with a matching company term supplied. -/
theorem blocked_topic_takes_precedence_witness :
    is_office_related (lc "Is bitcoin allowed in the office?") (some [lc "office"]) = false :=
  blocked_topic_takes_precedence _ _ ⟨lc "bitcoin", by decide, by decide⟩

/-- C4: the relevance-filter step retains exactly the chunks with
distance ≤ 1 − threshold (the boundary value included, since the comparison
is `≤`), preserving their relative order (the result is a sublist). -/
theorem relevance_filter_exact (th : ℚ) (chunks : List Chunk) :
    (∀ c ∈ relevanceFilter th chunks, c.distance ≤ 1 - th) ∧
    (∀ c ∈ chunks, c.distance ≤ 1 - th → c ∈ relevanceFilter th chunks) ∧
    List.Sublist (relevanceFilter th chunks) chunks := by
  refine ⟨?_, ?_, List.filter_sublist _⟩
  · intro c hc
    have := (List.mem_filter.mp hc).2
    exact of_decide_eq_true this
  · intro c hc hd
    exact List.mem_filter.mpr ⟨hc, decide_eq_true hd⟩

/-- Witness for C4: the boundary chunk (distance exactly 1 − threshold) is
retained by the filter. -/
theorem relevance_filter_exact_witness :
    boundaryChunk ∈ relevanceFilter (3 / 10) [boundaryChunk] :=
  (relevance_filter_exact (3 / 10) [boundaryChunk]).2.1 boundaryChunk
    (by simp) (by norm_num [boundaryChunk])

/-- C7: validate_response returns the fixed no-context refusal when the
chunk list is empty or the lower-cased response contains a hallucination
marker, returns the response unchanged otherwise, and in every case its
result is either the input response or that one refusal. -/
theorem validate_response_characterization (r : Str) (chunks : List Chunk) :
    (chunks = [] → validate_response r chunks = REFUSAL_NO_CONTEXT) ∧
    ((∃ m ∈ hallucination_markers, substrIn m (pyLower r) = true) →
      validate_response r chunks = REFUSAL_NO_CONTEXT) ∧
    (chunks ≠ [] → (∀ m ∈ hallucination_markers, substrIn m (pyLower r) = false) →
      validate_response r chunks = r) ∧
    (validate_response r chunks = r ∨ validate_response r chunks = REFUSAL_NO_CONTEXT) := by
  cases chunks with
  | nil =>
    refine ⟨fun _ => rfl, fun _ => rfl, fun hne _ => absurd rfl hne, Or.inr rfl⟩
  | cons c rest =>
    by_cases hm : findMarker (pyLower r) hallucination_markers = true
    · have hv : validate_response r (c :: rest) = REFUSAL_NO_CONTEXT := by
        simp [validate_response, hm]
      refine ⟨fun h => absurd h (List.cons_ne_nil c rest), fun _ => hv, ?_, Or.inr hv⟩
      intro _ hall
      obtain ⟨m, hmem, hsub⟩ := (findMarker_iff _ _).mp hm
      have hfalse := hall m hmem
      simp [hfalse] at hsub
    · have hv : validate_response r (c :: rest) = r := by
        simp [validate_response, hm]
      refine ⟨fun h => absurd h (List.cons_ne_nil c rest), ?_, fun _ _ => hv, Or.inl hv⟩
      intro hex
      exact absurd ((findMarker_iff _ _).mpr hex) hm

/-- Witness for C7 (spec Scenario D): a reply containing the marker
"as an ai" is replaced by the fixed refusal although a chunk is present. -/
theorem validate_response_characterization_witness :
    validate_response (lc "As an AI, I don't have access to real-time data")
      [boundaryChunk] = REFUSAL_NO_CONTEXT :=
  (validate_response_characterization _ _).2.1 ⟨lc "as an ai", by decide, by decide⟩

theorem takeEntries_sum (budget : Nat) (chunks : List Chunk) : ∀ t : Nat,
    t + ((takeEntries budget t chunks).map List.length).sum ≤ budget ∨
      takeEntries budget t chunks = [] := by
  induction chunks with
  | nil => intro t; exact Or.inr rfl
  | cons c rest ih =>
    intro t
    rw [takeEntries]
    by_cases h : t + (chunkEntry c).length > budget
    · exact Or.inr (if_pos h)
    · rw [if_neg h]
      left
      rcases ih (t + (chunkEntry c).length) with h2 | h2
      · simpa [Nat.add_assoc] using h2
      · rw [h2]
        simpa using Nat.le_of_not_lt h

theorem joinSep_length (sep : Str) : ∀ parts : List Str,
    (joinSep sep parts).length =
      (parts.map List.length).sum + sep.length * (parts.length - 1)
  | [] => by simp [joinSep]
  | [e] => by simp [joinSep]
  | e :: e2 :: rest => by
    have ih := joinSep_length sep (e2 :: rest)
    simp only [joinSep, List.length_append, ih, List.map_cons, List.sum_cons,
      List.length_cons, Nat.add_sub_cancel, Nat.mul_succ]
    omega

theorem mem_joinSep_infix (sep : Str) : ∀ parts : List Str, ∀ e ∈ parts,
    e <:+: joinSep sep parts
  | [], e, he => by cases he
  | [x], e, he => by
    rw [List.mem_singleton] at he
    subst he
    exact List.infix_refl _
  | x :: x2 :: rest, e, he => by
    rcases List.mem_cons.mp he with rfl | hmem
    · refine ⟨[], sep ++ joinSep sep (x2 :: rest), ?_⟩
      rw [joinSep]
      simp [List.append_assoc]
    · obtain ⟨s, t, hj⟩ := mem_joinSep_infix sep (x2 :: rest) e hmem
      refine ⟨x ++ sep ++ s, t, ?_⟩
      rw [joinSep, ← hj]
      simp [List.append_assoc]

/-- C9: validate_response is idempotent: validating an already-validated
result (with the same chunk list) returns it unchanged; in particular the
substituted refusal itself passes validation, since it contains no
hallucination marker. -/
theorem validate_response_idempotent (r : Str) (chunks : List Chunk) :
    validate_response (validate_response r chunks) chunks = validate_response r chunks := by
  cases chunks with
  | nil => rfl
  | cons c rest =>
    by_cases hm : findMarker (pyLower r) hallucination_markers = true
    · simp [validate_response, hm, refusal_has_no_marker]
    · simp [validate_response, hm]

/-- C2 counterexample: with character budget B = 7 × 4 = 28, both entries
(14 characters each) pass the pre-append check, yet the joined result is
14 + 7 + 14 = 35 characters — longer than B, because the 7-character
separator the join inserts is never counted against the budget. -/
theorem build_context_budget_counterexample :
    (build_context [cexChunk, cexChunk] 7).length = 35 ∧
      ¬((build_context [cexChunk, cexChunk] 7).length ≤ 7 * 4) := by
  decide

/-- C2 (amended): the budget B = maxTokens × 4 bounds the sum of the
accepted entries' lengths, the separators excluded — so the result's length
is at most B plus 7·(n−1) for n accepted entries — and every accepted entry
appears in the result in full (as a contiguous substring, never truncated). -/
theorem build_context_budget (chunks : List Chunk) (maxTokens : Nat) :
    ((takeEntries (maxTokens * 4) 0 chunks).map List.length).sum ≤ maxTokens * 4 ∧
    (build_context chunks maxTokens).length ≤
      maxTokens * 4 + ENTRY_SEP.length * ((takeEntries (maxTokens * 4) 0 chunks).length - 1) ∧
    ∀ e ∈ takeEntries (maxTokens * 4) 0 chunks, e <:+: build_context chunks maxTokens := by
  have hsum : ((takeEntries (maxTokens * 4) 0 chunks).map List.length).sum ≤ maxTokens * 4 := by
    rcases takeEntries_sum (maxTokens * 4) chunks 0 with h | h
    · simpa using h
    · simp [h]
  refine ⟨hsum, ?_, mem_joinSep_infix _ _⟩
  rw [build_context, joinSep_length]
  exact Nat.add_le_add_right hsum _

/-- Witness for C2 (amended): in the counterexample scenario the first
accepted entry appears in the result in full. -/
theorem build_context_budget_witness :
    chunkEntry cexChunk <:+: build_context [cexChunk, cexChunk] 7 :=
  (build_context_budget [cexChunk, cexChunk] 7).2.2 (chunkEntry cexChunk) (by decide)

/-- C1 (code bug): `RAGPipeline.query` accepts `company_terms` and documents
them as "for guardrail", and `is_office_related` does accept a question on a
company-term match — but `query` calls `format_guardrail_refusal(question)`
without forwarding the terms, so a question whose only match is a company
term is refused out-of-scope with was_filtered = true, contradicting the
claim (and the code's own docstring). -/
theorem company_terms_ignored :
    is_office_related (lc "Tell me about AcmeCorp") (some [lc "AcmeCorp"]) = true ∧
    BLOCKED_TOPICS.any (fun b => substrIn b (pyLower (lc "Tell me about AcmeCorp"))) = false ∧
    query (fun _ => []) (fun _ => none) defaultSettings
        (lc "Tell me about AcmeCorp") (some [lc "AcmeCorp"]) =
      Except.ok { answer := REFUSAL_OUT_OF_SCOPE, sources := [], was_filtered := true } := by
  refine ⟨by decide, by decide, rfl⟩

/-! Deduplication lemmas. -/

theorem mem_dedupAux (l : List Str) : ∀ (seen : List Str) (x : Str),
    x ∈ dedupAux seen l ↔ x ∈ l ∧ x ∉ seen := by
  induction l with
  | nil => intro seen x; simp [dedupAux]
  | cons s rest ih =>
    intro seen x
    by_cases hs : s ∈ seen
    · rw [dedupAux, if_pos hs, ih]
      constructor
      · rintro ⟨hx, hns⟩
        exact ⟨List.mem_cons_of_mem _ hx, hns⟩
      · rintro ⟨hx, hns⟩
        rcases List.mem_cons.mp hx with rfl | hx
        · exact absurd hs hns
        · exact ⟨hx, hns⟩
    · rw [dedupAux, if_neg hs]
      simp only [List.mem_cons, ih, not_or]
      constructor
      · rintro (rfl | ⟨hx, hne, hns⟩)
        · exact ⟨Or.inl rfl, hs⟩
        · exact ⟨Or.inr hx, hns⟩
      · rintro ⟨rfl | hx, hns⟩
        · exact Or.inl rfl
        · by_cases hxs : x = s
          · exact Or.inl hxs
          · exact Or.inr ⟨hx, hxs, hns⟩

theorem nodup_dedupAux (l : List Str) : ∀ seen : List Str, (dedupAux seen l).Nodup := by
  induction l with
  | nil => intro seen; simp [dedupAux]
  | cons s rest ih =>
    intro seen
    by_cases hs : s ∈ seen
    · rw [dedupAux, if_pos hs]; exact ih seen
    · rw [dedupAux, if_neg hs]
      refine List.nodup_cons.mpr ⟨?_, ih (s :: seen)⟩
      intro hmem
      exact ((mem_dedupAux rest (s :: seen) s).mp hmem).2 (List.mem_cons_self s seen)

theorem sublist_dedupAux (l : List Str) : ∀ seen : List Str,
    List.Sublist (dedupAux seen l) l := by
  induction l with
  | nil => intro seen; simp [dedupAux]
  | cons s rest ih =>
    intro seen
    by_cases hs : s ∈ seen
    · rw [dedupAux, if_pos hs]; exact (ih seen).cons s
    · rw [dedupAux, if_neg hs]; exact (ih (s :: seen)).cons₂ s

theorem dedupAux_eq_firstOccurrences (l : List Str) : ∀ seen : List Str,
    dedupAux seen l = firstOccurrences (l.filter (fun t => decide (t ∉ seen))) := by
  induction l with
  | nil => intro seen; simp [dedupAux, firstOccurrences]
  | cons s rest ih =>
    intro seen
    by_cases hs : s ∈ seen
    · rw [dedupAux, if_pos hs, ih seen]
      congr 1
      simp [hs]
    · rw [dedupAux, if_neg hs, ih (s :: seen)]
      have hfil : (s :: rest).filter (fun t => decide (t ∉ seen)) =
          s :: rest.filter (fun t => decide (t ∉ seen)) := by simp [hs]
      rw [hfil, firstOccurrences, List.filter_filter]
      congr 2
      apply List.filter_congr
      intro t _
      by_cases h1 : t = s <;> by_cases h2 : t ∈ seen <;> simp [h1, h2]

theorem dedupSources_eq_firstOccurrences (l : List Str) :
    dedupSources l = firstOccurrences l := by
  rw [dedupSources, dedupAux_eq_firstOccurrences]
  congr 1
  simp

/-! Query-shape helpers: how query evaluates in each terminal state. -/

theorem query_done (store : Str → List Chunk)
    (http : List Message → Option OllamaResponse) (st : Settings) (q : Str)
    (ct : Option (List Str)) (raw : Str)
    (hg : format_guardrail_refusal q = none)
    (hne : relevanceFilter st.relevance_score_threshold (store (enhancedQuery q)) ≠ [])
    (hok : call_ollama http st
      (build_prompt
        (build_context (relevanceFilter st.relevance_score_threshold (store (enhancedQuery q)))
          st.max_context_tokens) q) = Except.ok raw) :
    query store http st q ct = Except.ok
      { answer := validate_response raw
          (relevanceFilter st.relevance_score_threshold (store (enhancedQuery q)))
        sources := dedupSources
          ((relevanceFilter st.relevance_score_threshold (store (enhancedQuery q))).map chunkSource)
        was_filtered := false } := by
  simp only [query, hg]
  rw [if_neg hne, hok]

theorem relevanceFilter_nil (th : ℚ) : relevanceFilter th [] = [] := rfl

theorem relevanceFilter_cons_pos {th : ℚ} {c : Chunk} {rest : List Chunk}
    (h : c.distance ≤ 1 - th) :
    relevanceFilter th (c :: rest) = c :: relevanceFilter th rest := by
  simp [relevanceFilter, List.filter_cons, h]

theorem relevanceFilter_cons_neg {th : ℚ} {c : Chunk} {rest : List Chunk}
    (h : ¬(c.distance ≤ 1 - th)) :
    relevanceFilter th (c :: rest) = relevanceFilter th rest := by
  simp [relevanceFilter, List.filter_cons, h]

theorem filterABA :
    relevanceFilter defaultSettings.relevance_score_threshold (storeABA (enhancedQuery qDress)) =
      [chunkA, chunkB, chunkA2] := by
  show relevanceFilter defaultSettings.relevance_score_threshold [chunkA, chunkB, chunkA2] = _
  rw [relevanceFilter_cons_pos (by norm_num [chunkA, defaultSettings]),
    relevanceFilter_cons_pos (by norm_num [chunkB, defaultSettings]),
    relevanceFilter_cons_pos (by norm_num [chunkA2, defaultSettings]),
    relevanceFilter_nil]

theorem filterFar :
    relevanceFilter defaultSettings.relevance_score_threshold (storeFar (enhancedQuery qDress)) =
      [] := by
  show relevanceFilter defaultSettings.relevance_score_threshold [chunkFar] = _
  rw [relevanceFilter_cons_neg (by norm_num [chunkFar, defaultSettings]), relevanceFilter_nil]

theorem filterNoName :
    relevanceFilter defaultSettings.relevance_score_threshold (storeNoName (enhancedQuery qDress)) =
      [chunkNoName] := by
  show relevanceFilter defaultSettings.relevance_score_threshold [chunkNoName] = _
  rw [relevanceFilter_cons_pos (by norm_num [chunkNoName, defaultSettings]), relevanceFilter_nil]

/-- C5: query fails with an error exactly when the guardrail passed, the
relevance filter kept at least one chunk, and the single generation call
returned that same error — the error is propagated unchanged, never retried
and never converted to a refusal; every other adverse condition (guardrail
rejection, no relevant context, ungrounded output) ends in `Except.ok` with
a refusal inside. -/
theorem service_errors_propagate (store : Str → List Chunk)
    (http : List Message → Option OllamaResponse) (st : Settings) (q : Str)
    (ct : Option (List Str)) (e : GenError) :
    query store http st q ct = Except.error e ↔
      (format_guardrail_refusal q = none ∧
       relevanceFilter st.relevance_score_threshold (store (enhancedQuery q)) ≠ [] ∧
       call_ollama http st
         (build_prompt
           (build_context (relevanceFilter st.relevance_score_threshold (store (enhancedQuery q)))
             st.max_context_tokens) q) = Except.error e) := by
  constructor
  · intro h
    cases hg : format_guardrail_refusal q with
    | some r => simp [query, hg] at h
    | none =>
      by_cases hne : relevanceFilter st.relevance_score_threshold (store (enhancedQuery q)) = []
      · simp [query, hg, hne] at h
      · refine ⟨rfl, hne, ?_⟩
        simp only [query, hg] at h
        rw [if_neg hne] at h
        cases hoc : call_ollama http st
            (build_prompt
              (build_context (relevanceFilter st.relevance_score_threshold (store (enhancedQuery q)))
                st.max_context_tokens) q) with
        | error e2 => rw [hoc] at h; cases h; rfl
        | ok raw => rw [hoc] at h; cases h
  · rintro ⟨hg, hne, hoc⟩
    simp only [query, hg]
    rw [if_neg hne, hoc]

/-- Witness for C5: on a transport that answers 500, query surfaces exactly
the RuntimeError the generation layer raised. -/
theorem service_errors_propagate_witness :
    query storeABA http500 defaultSettings qDress none =
      Except.error (GenError.runtimeError (statusErrMsg 500 (lc "boom"))) :=
  (service_errors_propagate storeABA http500 defaultSettings qDress none _).mpr
    ⟨by decide, by rw [filterABA]; simp, rfl⟩

/-- C6: when the guardrail passes but no retrieved chunk clears the
relevance filter, query returns exactly the fixed no-context refusal, empty
sources and was_filtered = false — and since this holds for every transport
`http`, no generation call is involved in the outcome. -/
theorem no_context_refusal (store : Str → List Chunk)
    (http : List Message → Option OllamaResponse) (st : Settings) (q : Str)
    (ct : Option (List Str))
    (hg : format_guardrail_refusal q = none)
    (hempty : relevanceFilter st.relevance_score_threshold (store (enhancedQuery q)) = []) :
    query store http st q ct =
      Except.ok { answer := REFUSAL_NO_CONTEXT, sources := [], was_filtered := false } := by
  simp [query, hg, hempty]

/-- Witness for C6 (spec Scenario C): every chunk at distance 9/10 under the
0.3 threshold is dropped; the transport here cannot even connect, yet no
failure escapes, confirming generation is never invoked. -/
theorem no_context_refusal_witness :
    query storeFar httpDown defaultSettings qDress none =
      Except.ok { answer := REFUSAL_NO_CONTEXT, sources := [], was_filtered := false } :=
  no_context_refusal storeFar httpDown defaultSettings qDress none
    (by decide) filterFar

/-- C8: in the Done state, query's sources are the filtered chunks' filename
values deduplicated: equal to the first-occurrence specification, free of
duplicates, a sublist of the filename list (relative order preserved) and
containing exactly its values. -/
theorem sources_dedup_first_occurrence (store : Str → List Chunk)
    (http : List Message → Option OllamaResponse) (st : Settings) (q : Str)
    (ct : Option (List Str)) (raw : Str)
    (hg : format_guardrail_refusal q = none)
    (hne : relevanceFilter st.relevance_score_threshold (store (enhancedQuery q)) ≠ [])
    (hok : call_ollama http st
      (build_prompt
        (build_context (relevanceFilter st.relevance_score_threshold (store (enhancedQuery q)))
          st.max_context_tokens) q) = Except.ok raw) :
    ∃ r : QueryResult, query store http st q ct = Except.ok r ∧
      r.sources = dedupSources
        ((relevanceFilter st.relevance_score_threshold (store (enhancedQuery q))).map chunkSource) ∧
      r.sources = firstOccurrences
        ((relevanceFilter st.relevance_score_threshold (store (enhancedQuery q))).map chunkSource) ∧
      r.sources.Nodup ∧
      List.Sublist r.sources
        ((relevanceFilter st.relevance_score_threshold (store (enhancedQuery q))).map chunkSource) ∧
      (∀ x, x ∈ r.sources ↔ x ∈
        (relevanceFilter st.relevance_score_threshold (store (enhancedQuery q))).map chunkSource) := by
  refine ⟨_, query_done store http st q ct raw hg hne hok, rfl,
    dedupSources_eq_firstOccurrences _, nodup_dedupAux _ _, sublist_dedupAux _ _, ?_⟩
  intro x
  rw [dedupSources, mem_dedupAux]
  simp

/-- Witness for C8 (spec Scenario E): filenames a.pdf, b.pdf, a.pdf yield
sources [a.pdf, b.pdf]. -/
theorem sources_dedup_first_occurrence_witness :
    ∃ r : QueryResult, query storeABA httpOkMsg defaultSettings qDress none = Except.ok r ∧
      r.sources = [lc "a.pdf", lc "b.pdf"] := by
  obtain ⟨r, hq, hs, -, -, -, -⟩ :=
    sources_dedup_first_occurrence storeABA httpOkMsg defaultSettings qDress none
      (lc "Business casual, per the handbook.") (by decide)
      (by rw [filterABA]; simp) rfl
  refine ⟨r, hq, ?_⟩
  rw [hs, filterABA]
  decide

/-- C10: whenever query reaches the Done state, its sources list is
non-empty, and every filtered chunk contributes its filename — with
"Unknown" substituted when the metadata lacks one — rather than being
dropped. -/
theorem done_sources_nonempty (store : Str → List Chunk)
    (http : List Message → Option OllamaResponse) (st : Settings) (q : Str)
    (ct : Option (List Str)) (raw : Str)
    (hg : format_guardrail_refusal q = none)
    (hne : relevanceFilter st.relevance_score_threshold (store (enhancedQuery q)) ≠ [])
    (hok : call_ollama http st
      (build_prompt
        (build_context (relevanceFilter st.relevance_score_threshold (store (enhancedQuery q)))
          st.max_context_tokens) q) = Except.ok raw) :
    ∃ r : QueryResult, query store http st q ct = Except.ok r ∧
      r.sources ≠ [] ∧
      ∀ c ∈ relevanceFilter st.relevance_score_threshold (store (enhancedQuery q)),
        c.filename.getD (lc "Unknown") ∈ r.sources := by
  refine ⟨_, query_done store http st q ct raw hg hne hok, ?_, ?_⟩ <;> dsimp only
  · intro hnil
    rcases List.exists_mem_of_ne_nil _ hne with ⟨c, hc⟩
    have hmem : chunkSource c ∈ dedupSources
        ((relevanceFilter st.relevance_score_threshold (store (enhancedQuery q))).map chunkSource) := by
      rw [dedupSources, mem_dedupAux]
      exact ⟨List.mem_map_of_mem chunkSource hc, List.not_mem_nil _⟩
    rw [hnil] at hmem
    exact List.not_mem_nil _ hmem
  · intro c hc
    show chunkSource c ∈ dedupSources _
    rw [dedupSources, mem_dedupAux]
    exact ⟨List.mem_map_of_mem chunkSource hc, List.not_mem_nil _⟩

/-- Witness for C10: a single filtered chunk with no filename metadata still
yields the non-empty source list, with the "Unknown" placeholder present. -/
theorem done_sources_nonempty_witness :
    ∃ r : QueryResult, query storeNoName httpOkMsg defaultSettings qDress none = Except.ok r ∧
      r.sources ≠ [] ∧
      ∀ c ∈ relevanceFilter defaultSettings.relevance_score_threshold
          (storeNoName (enhancedQuery qDress)),
        c.filename.getD (lc "Unknown") ∈ r.sources :=
  done_sources_nonempty storeNoName httpOkMsg defaultSettings qDress none
    (lc "Business casual, per the handbook.") (by decide)
    (by rw [filterNoName]; simp) rfl

example : substrIn (lc "lo w") (lc "hello world") = true := by decide
example : substrIn (lc "xyz") (lc "hello world") = false := by decide
example : is_office_related (lc "What is the dress code policy?") none = true := by decide
example : is_office_related (lc "Is bitcoin a good buy?") none = false := by decide
example : is_office_related (lc "Where is the room?") none = true := by decide
example : is_office_related (lc "Tell me about zebras") none = false := by decide
